import Mathlib

/-!
Verification development for the harbourmaster container-orchestration layer
(`src/container.rs`, `src/client.rs`, `src/port.rs`).

The Rust code is shallowly embedded: the container runtime (shiplift) is an
oracle (`Runtime`) giving the outcome of each request, asynchronous pipeline
code becomes a pure function that additionally records the ordered list of
requests it issued (its trace), and `Result<T, shiplift::Error>` becomes
`Except`.  Errors returned by `build()` are propagated verbatim from the
runtime; the embedding additionally tags each propagated error with the
pipeline `Stage` of the call site it escaped from (the spec's
PullFailed/CreateFailed/StartFailed/InspectFailed/DeleteFailed taxonomy).
-/

namespace Harbourmaster

/-- `src/port.rs`: `pub enum Protocol { Tcp, Udp }`. -/
inductive Protocol where
  | Tcp : Protocol
  | Udp : Protocol
deriving DecidableEq, Repr

/-- `src/port.rs`: `impl AsRef<str> for Protocol` — canonical lowercase wire string. -/
def Protocol.as_ref : Protocol → String
  | Protocol.Tcp => "tcp"
  | Protocol.Udp => "udp"

/-- `src/container.rs` lines 14–18: the private `Port` struct.
`source`/`host` are `u32` widened from `u16` arguments; modelled as `Nat`. -/
structure Port where
  source : Nat
  host : Nat
  protocol : Protocol
deriving DecidableEq, Repr

/-- `src/client.rs`: a `Client` is a reference-counted handle to a
`shiplift::Docker`.  The embedding only needs identity: `shared` is the
process-wide lazily constructed instance returned by `Client::default()`,
`custom n` stands for any other handle (`Client::new()` / the `From` impls). -/
inductive Client where
  | shared : Client
  | custom (n : Nat) : Client
deriving DecidableEq, Repr

/-- `shiplift::Error`, kept opaque: only its identity matters to this layer,
which propagates it verbatim. -/
structure RuntimeError where
  msg : String
deriving DecidableEq, Repr

/-- `shiplift::rep::ContainerCreateInfo` — only the `id` field is read by
this layer (`src/container.rs` line 306). -/
structure ContainerCreateInfo where
  id : String
deriving DecidableEq, Repr

/-- The port-mapping structure inside `ContainerDetails::network_settings`:
`Option<HashMap<String, Option<Vec<HashMap<String, String>>>>>`, with each
`HashMap` modelled as an association list. -/
abbrev PortsMap := List (String × Option (List (List (String × String))))

/-- The slice of `shiplift::rep::ContainerDetails::network_settings` this
layer reads (`src/container.rs` lines 129–145). -/
structure NetworkSettings where
  ports : Option PortsMap
deriving Repr

/-- The slice of `shiplift::rep::ContainerDetails` this layer reads:
`id` (line 126) and `network_settings` (lines 133, 144). -/
structure ContainerDetails where
  id : String
  network_settings : NetworkSettings
deriving Repr

/-- `src/container.rs` line 159: `pub type SourcePort = (u16, Protocol)`. -/
abbrev SourcePort := Nat × Protocol

/-- `std::net::SocketAddrV4` (`src/container.rs` line 160:
`pub type HostPort = SocketAddrV4`); the embedding never constructs one. -/
structure SocketAddrV4 where
  ip : Nat
  port : Nat
deriving DecidableEq, Repr

/-- `src/container.rs` line 160. -/
abbrev HostPort := SocketAddrV4

/-- The state accumulated by `shiplift::ContainerOptions::builder` as used by
`create_container` (`src/container.rs` lines 339–351).  This is the §6
boundary: what this layer submits to the runtime's creation endpoint is
exactly the sequence of builder calls it makes — `image` from the
constructor, then `cmd`, `env`, optionally `name`, then one `expose` per
port in iteration order. -/
structure ExposedPort where
  srcport : Nat
  protocol : String
  hostport : Nat
deriving DecidableEq, Repr

/-- See `ExposedPort`. -/
structure ContainerOptionsState where
  image : String
  cmd : List String
  env : List String
  name : Option String
  exposedPorts : List ExposedPort
deriving DecidableEq, Repr

/-- `ContainerOptions::builder(image)`. -/
def ContainerOptionsState.builder (image : String) : ContainerOptionsState :=
  { image := image, cmd := [], env := [], name := none, exposedPorts := [] }

/-- `container_options.cmd(commands)` — sets the command list. -/
def ContainerOptionsState.setCmd (o : ContainerOptionsState) (c : List String) :
    ContainerOptionsState :=
  { o with cmd := c }

/-- `container_options.env(environment_variables)` — sets the env list. -/
def ContainerOptionsState.setEnv (o : ContainerOptionsState) (e : List String) :
    ContainerOptionsState :=
  { o with env := e }

/-- `container_options.name(name)` — sets the container name. -/
def ContainerOptionsState.setName (o : ContainerOptionsState) (n : String) :
    ContainerOptionsState :=
  { o with name := some n }

/-- `container_options.expose(port.source, port.protocol.as_ref(), port.host)`
— records one exposed port, in call order. -/
def ContainerOptionsState.exposePort (o : ContainerOptionsState)
    (src : Nat) (proto : String) (host : Nat) : ContainerOptionsState :=
  { o with exposedPorts := o.exposedPorts ++ [⟨src, proto, host⟩] }

/-- One progress item of the pull stream
(`client.images().pull(...)` in `src/container.rs` line 319): either a
progress chunk or a stream error. -/
abbrev PullItem := Except RuntimeError String

/-- The container-runtime oracle: the outcome the runtime gives to each
request this layer can issue (§6 of the spec).  `pullStream` is the full
progress stream the runtime would yield for a pull of the given image
reference. -/
structure Runtime where
  pullStream : String → List PullItem
  create : ContainerOptionsState → Except RuntimeError ContainerCreateInfo
  start : String → Except RuntimeError Unit
  inspect : String → Except RuntimeError ContainerDetails
  remove : String → Except RuntimeError Unit

/-- A request issued to the runtime, recorded in issue order. -/
inductive Request where
  | pull (image : String) : Request
  | create (opts : ContainerOptionsState) : Request
  | start (id : String) : Request
  | inspect (id : String) : Request
  | remove (id : String) : Request
deriving DecidableEq, Repr

/-- The spec's error taxonomy (§7): the pipeline stage an error escaped from. -/
inductive Stage where
  | pull : Stage
  | create : Stage
  | start : Stage
  | inspect : Stage
  | delete : Stage
deriving DecidableEq, Repr

/-- Position of a stage in the pipeline order (delete is outside `build()`). -/
def Stage.idx : Stage → Nat
  | Stage.pull => 0
  | Stage.create => 1
  | Stage.start => 2
  | Stage.inspect => 3
  | Stage.delete => 4

/-- The stage a request belongs to. -/
def Request.stage : Request → Stage
  | Request.pull _ => Stage.pull
  | Request.create _ => Stage.create
  | Request.start _ => Stage.start
  | Request.inspect _ => Stage.inspect
  | Request.remove _ => Stage.delete

/-- `rand::distributions::Alphanumeric`'s character set, in rand's order. -/
def GEN_ASCII_CHARSET : String :=
  "ABCDEFGHIJKLMNOPQRSTUVWXYZabcdefghijklmnopqrstuvwxyz0123456789"

/-- One `Alphanumeric` sample: the charset entry picked by the RNG. -/
def alphanumericChar (i : Fin 62) : Char :=
  GEN_ASCII_CHARSET.toList.getD i.val 'A'

/-- The thread-local RNG (`thread_rng()`), modelled as the infinite stream of
`Alphanumeric` samples it would produce: the `k`-th call to `sample` returns
charset entry `rng k`. -/
abbrev Rng := Nat → Fin 62

/-- `src/container.rs` lines 30–34: `pub struct Container`. -/
structure Container where
  details : ContainerDetails
  client : Client
deriving Repr

/-- `Container::id` (lines 124–127): `&self.details.id`. -/
def Container.id (c : Container) : String :=
  c.details.id

/-- `Container::ports` (lines 129–139): computes `_map` from the inspected
network settings, then hits `todo!()`.  A panicking call is modelled as
`none`: no value is ever returned, for any handle. -/
def Container.ports (c : Container) : Option (List (SourcePort × List HostPort)) :=
  let _map := c.details.network_settings.ports.getD []
  none

/-- `Container::ports_raw` (lines 141–145): the inspected port mapping,
verbatim. -/
def Container.ports_raw (c : Container) : Option PortsMap :=
  c.details.network_settings.ports

/-- `Container::delete` (lines 150–156): one forced-removal request for the
container's id; an error is propagated verbatim, tagged `delete`. -/
def Container.delete (c : Container) (rt : Runtime) :
    List Request × Except (Stage × RuntimeError) Unit :=
  ([Request.remove c.id],
    match rt.remove c.id with
    | Except.error e => Except.error (Stage.delete, e)
    | Except.ok _ => Except.ok ())

/-- `src/container.rs` lines 166–178: `pub struct ContainerBuilder`. -/
structure ContainerBuilder where
  image_name : String
  image_tag : String
  name : Option String
  ports : List Port
  commands : List String
  environment_variables : List String
  client : Client
  pull_on_build : Bool
  slug_length : Nat
deriving DecidableEq, Repr

/-- `ContainerBuilder::new` (lines 181–195). -/
def ContainerBuilder.new (image_name : String) : ContainerBuilder :=
  { image_name := image_name
    image_tag := "latest"
    name := none
    ports := []
    commands := []
    environment_variables := []
    client := Client.shared
    pull_on_build := false
    slug_length := 0 }

/-- `ContainerBuilder::image` (lines 197–199): `format!("\x7b\x7d:\x7b\x7d", image_name, image_tag)`. -/
def ContainerBuilder.image (b : ContainerBuilder) : String :=
  b.image_name ++ ":" ++ b.image_tag

/-- `ContainerBuilder::tag` (lines 202–205). -/
def ContainerBuilder.tag (b : ContainerBuilder) (t : String) : ContainerBuilder :=
  { b with image_tag := t }

/-- `ContainerBuilder::client` (lines 212–215); renamed: the Lean field
`client` occupies the source name. -/
def ContainerBuilder.withClient (b : ContainerBuilder) (c : Client) : ContainerBuilder :=
  { b with client := c }

/-- `ContainerBuilder::name` (lines 218–221); renamed: the Lean field `name`
occupies the source name. -/
def ContainerBuilder.withName (b : ContainerBuilder) (n : String) : ContainerBuilder :=
  { b with name := some n }

/-- `ContainerBuilder::slug_length` (lines 229–232); renamed: the Lean field
`slug_length` occupies the source name. -/
def ContainerBuilder.withSlugLength (b : ContainerBuilder) (length : Nat) : ContainerBuilder :=
  { b with slug_length := length }

/-- `ContainerBuilder::slugged_name` (lines 234–250): `None` when no name is
set; otherwise, for `slug_length > 0`, the base name, `_`, and `slug_length`
successive `Alphanumeric` samples; for `slug_length == 0` the base name
verbatim. -/
def ContainerBuilder.slugged_name (b : ContainerBuilder) (rng : Rng) : Option String :=
  match b.name with
  | none => none
  | some base_name =>
    if b.slug_length > 0 then
      let slug : String :=
        String.mk ((List.range b.slug_length).map (fun i => alphanumericChar (rng i)))
      some (base_name ++ "_" ++ slug)
    else
      some base_name

/-- `ContainerBuilder::commands` (lines 253–260): wholesale replacement;
renamed: the Lean field `commands` occupies the source name. -/
def ContainerBuilder.withCommands (b : ContainerBuilder) (cs : List String) : ContainerBuilder :=
  { b with commands := cs }

/-- `ContainerBuilder::expose` (lines 265–272): appends one `Port`. -/
def ContainerBuilder.expose (b : ContainerBuilder) (src_port : Nat) (host_port : Nat)
    (protocol : Protocol) : ContainerBuilder :=
  { b with ports := b.ports ++ [{ source := src_port, host := host_port, protocol := protocol }] }

/-- `ContainerBuilder::environment_variable` (lines 275–278): appends one
entry. -/
def ContainerBuilder.environment_variable (b : ContainerBuilder) (env : String) :
    ContainerBuilder :=
  { b with environment_variables := b.environment_variables ++ [env] }

/-- `ContainerBuilder::pull_on_build` (lines 282–285); renamed: the Lean
field `pull_on_build` occupies the source name. -/
def ContainerBuilder.withPullOnBuild (b : ContainerBuilder) (p : Bool) : ContainerBuilder :=
  { b with pull_on_build := p }

/-- The loop of `pull_image` (lines 322–325):
`while let Some(Ok(chunk)) = stream.next().await { debug!(chunk) }`.
It consumes progress chunks until the stream ends or yields an error item —
the `let chunk = chunk?;` propagation is commented out in the source, so an
error item merely ends the loop and the function returns `Ok(())`. -/
def pullLoop : List PullItem → Except RuntimeError Unit
  | [] => Except.ok ()
  | Except.ok _chunk :: rest => pullLoop rest
  | Except.error _ :: _ => Except.ok ()

/-- `pull_image` (lines 316–329): issues the pull and runs the drain loop. -/
def pull_image (stream : List PullItem) : Except RuntimeError Unit :=
  pullLoop stream

/-- The pure option-building part of `create_container` (lines 339–349):
`ContainerOptions::builder(image)`, then `cmd`, `env`, `name` if a name was
supplied, then one `expose` per port in order. -/
def create_options (image : String) (container_name : Option String) (ports : List Port)
    (commands : List String) (environment_variables : List String) : ContainerOptionsState :=
  let o := ContainerOptionsState.builder image
  let o := o.setCmd commands
  let o := o.setEnv environment_variables
  let o := match container_name with
    | some n => o.setName n
    | none => o
  ports.foldl (fun o p => o.exposePort p.source p.protocol.as_ref p.host) o

/-- The creation options `build()` submits: `create_container(&client, &image,
self.slugged_name(), self.ports, commands, self.environment_variables)`
(lines 297–304). -/
def ContainerBuilder.createOpts (b : ContainerBuilder) (rng : Rng) : ContainerOptionsState :=
  create_options b.image (b.slugged_name rng) b.ports b.commands b.environment_variables

/-- `ContainerBuilder::build` (lines 289–313): optional pull (result
propagated by `?`), then create, start and inspect, each propagating the
runtime's error by `?`; on success the `Container` wraps the inspected
details and the builder's client.  The first component is the ordered trace
of runtime requests issued; each propagated error is tagged with the stage of
the call site it escaped from. -/
def ContainerBuilder.build (b : ContainerBuilder) (rt : Runtime) (rng : Rng) :
    List Request × Except (Stage × RuntimeError) Container :=
  let image := b.image
  let pullRes : Except RuntimeError Unit :=
    if b.pull_on_build then pull_image (rt.pullStream image) else Except.ok ()
  let pullReqs : List Request :=
    if b.pull_on_build then [Request.pull image] else []
  match pullRes with
  | Except.error e => (pullReqs, Except.error (Stage.pull, e))
  | Except.ok _ =>
    let opts := b.createOpts rng
    match rt.create opts with
    | Except.error e => (pullReqs ++ [Request.create opts], Except.error (Stage.create, e))
    | Except.ok create_info =>
      let id := create_info.id
      match rt.start id with
      | Except.error e =>
        (pullReqs ++ [Request.create opts, Request.start id], Except.error (Stage.start, e))
      | Except.ok _ =>
        match rt.inspect id with
        | Except.error e =>
          (pullReqs ++ [Request.create opts, Request.start id, Request.inspect id],
            Except.error (Stage.inspect, e))
        | Except.ok details =>
          (pullReqs ++ [Request.create opts, Request.start id, Request.inspect id],
            Except.ok { details := details, client := b.client })

/-- `Container::new` (lines 51–53): `ContainerBuilder::new(image_name).build()`. -/
def Container.new (image_name : String) (rt : Runtime) (rng : Rng) :
    List Request × Except (Stage × RuntimeError) Container :=
  (ContainerBuilder.new image_name).build rt rng

/-- `Container::pull` (lines 72–77):
`ContainerBuilder::new(image_name).pull_on_build(true).build()`. -/
def Container.pull (image_name : String) (rt : Runtime) (rng : Rng) :
    List Request × Except (Stage × RuntimeError) Container :=
  ((ContainerBuilder.new image_name).withPullOnBuild true).build rt rng

/-! ### Helper lemmas about the embedding -/

/-- The drain loop returns `Ok(())` on every stream: the error propagation is
commented out in the source, so an error item merely exits the loop. -/
lemma pullLoop_ok (s : List PullItem) : pullLoop s = Except.ok () := by
  induction s with
  | nil => rfl
  | cons x rest ih =>
    cases x with
    | ok c => simpa [pullLoop] using ih
    | error e => rfl

/-- `pull_image` succeeds on every stream. -/
lemma pull_image_ok (s : List PullItem) : pull_image s = Except.ok () :=
  pullLoop_ok s

/-- The pull requests `build()` issues before the create stage. -/
def pullReqs (b : ContainerBuilder) : List Request :=
  if b.pull_on_build then [Request.pull b.image] else []

lemma build_create_err (b : ContainerBuilder) (rt : Runtime) (rng : Rng) (e : RuntimeError)
    (hc : rt.create (b.createOpts rng) = Except.error e) :
    b.build rt rng
      = (pullReqs b ++ [Request.create (b.createOpts rng)], Except.error (Stage.create, e)) := by
  simp [ContainerBuilder.build, pull_image_ok, pullReqs, hc]

lemma build_start_err (b : ContainerBuilder) (rt : Runtime) (rng : Rng)
    (info : ContainerCreateInfo) (e : RuntimeError)
    (hc : rt.create (b.createOpts rng) = Except.ok info)
    (hs : rt.start info.id = Except.error e) :
    b.build rt rng
      = (pullReqs b ++ [Request.create (b.createOpts rng), Request.start info.id],
          Except.error (Stage.start, e)) := by
  simp [ContainerBuilder.build, pull_image_ok, pullReqs, hc, hs]

lemma build_inspect_err (b : ContainerBuilder) (rt : Runtime) (rng : Rng)
    (info : ContainerCreateInfo) (e : RuntimeError)
    (hc : rt.create (b.createOpts rng) = Except.ok info)
    (hs : rt.start info.id = Except.ok ())
    (hi : rt.inspect info.id = Except.error e) :
    b.build rt rng
      = (pullReqs b
            ++ [Request.create (b.createOpts rng), Request.start info.id,
                Request.inspect info.id],
          Except.error (Stage.inspect, e)) := by
  simp [ContainerBuilder.build, pull_image_ok, pullReqs, hc, hs, hi]

lemma build_ok (b : ContainerBuilder) (rt : Runtime) (rng : Rng)
    (info : ContainerCreateInfo) (d : ContainerDetails)
    (hc : rt.create (b.createOpts rng) = Except.ok info)
    (hs : rt.start info.id = Except.ok ())
    (hi : rt.inspect info.id = Except.ok d) :
    b.build rt rng
      = (pullReqs b
            ++ [Request.create (b.createOpts rng), Request.start info.id,
                Request.inspect info.id],
          Except.ok { details := d, client := b.client }) := by
  simp [ContainerBuilder.build, pull_image_ok, pullReqs, hc, hs, hi]

/-- The create request is issued on every run of `build()` (the pull stage
can never fail, see `pull_image_ok`). -/
lemma create_in_trace (b : ContainerBuilder) (rt : Runtime) (rng : Rng) :
    Request.create (b.createOpts rng) ∈ (b.build rt rng).1 := by
  cases hc : rt.create (b.createOpts rng) with
  | error e => rw [build_create_err b rt rng e hc]; simp
  | ok info =>
    cases hs : rt.start info.id with
    | error e => rw [build_start_err b rt rng info e hc hs]; simp
    | ok u =>
      cases hi : rt.inspect info.id with
      | error e => rw [build_inspect_err b rt rng info e hc hs hi]; simp
      | ok d => rw [build_ok b rt rng info d hc hs hi]; simp

/-- The `ExposedPort` entry recorded for one `Port` by the `expose` loop of
`create_container`. -/
def Port.toExposed (p : Port) : ExposedPort :=
  { srcport := p.source, protocol := p.protocol.as_ref, hostport := p.host }

/-- The `expose` loop of `create_container` appends one recorded port per
`Port`, in iteration order, and touches nothing else. -/
lemma foldl_exposePort (ports : List Port) (o : ContainerOptionsState) :
    ports.foldl (fun acc p => acc.exposePort p.source p.protocol.as_ref p.host) o
      = { o with exposedPorts := o.exposedPorts ++ ports.map Port.toExposed } := by
  induction ports generalizing o with
  | nil => simp
  | cons p ps ih =>
    rw [List.foldl_cons, ih]
    simp [ContainerOptionsState.exposePort, Port.toExposed]

/-- Closed form of the options `create_container` builds. -/
lemma create_options_eq (image : String) (nm : Option String) (ports : List Port)
    (cmds envs : List String) :
    create_options image nm ports cmds envs
      = { image := image, cmd := cmds, env := envs, name := nm,
          exposedPorts := ports.map Port.toExposed } := by
  cases nm <;>
    simp [create_options, ContainerOptionsState.builder, ContainerOptionsState.setCmd,
      ContainerOptionsState.setEnv, ContainerOptionsState.setName, foldl_exposePort]

/-- Repeated `expose` calls append their ports in call order. -/
lemma expose_foldl (l : List (Nat × Nat × Protocol)) (b : ContainerBuilder) :
    (l.foldl (fun acc x => acc.expose x.1 x.2.1 x.2.2) b).ports
      = b.ports ++ l.map (fun x => { source := x.1, host := x.2.1, protocol := x.2.2 }) := by
  induction l generalizing b with
  | nil => simp
  | cons x xs ih =>
    rw [List.foldl_cons, ih]
    simp [ContainerBuilder.expose]

/-- Repeated `environment_variable` calls append their entries in call order. -/
lemma environment_variables_foldl (l : List String) (b : ContainerBuilder) :
    (l.foldl (fun acc ev => acc.environment_variable ev) b).environment_variables
      = b.environment_variables ++ l := by
  induction l generalizing b with
  | nil => simp
  | cons x xs ih =>
    rw [List.foldl_cons, ih]
    simp [ContainerBuilder.environment_variable]

/-- Every `Alphanumeric` sample is an ASCII alphanumeric character. -/
lemma alphanumericChar_isAlphanum : ∀ i : Fin 62, (alphanumericChar i).isAlphanum = true := by
  decide

/-! ### Concrete fixtures used by witnesses and counterexamples -/

/-- A concrete RNG: always picks charset entry 0 (the character `A`). -/
def rng0 : Rng := fun _ => 0

/-- A runtime on which every stage succeeds; `inspect` reports id `cid`. -/
def rtOK : Runtime :=
  { pullStream := fun _ => []
    create := fun _ => Except.ok { id := "cid" }
    start := fun _ => Except.ok ()
    inspect := fun _ => Except.ok { id := "cid", network_settings := { ports := none } }
    remove := fun _ => Except.ok () }

/-- A runtime whose pull stream yields an error item; every later stage
succeeds. -/
def rtPullErr : Runtime :=
  { rtOK with pullStream := fun _ => [Except.error { msg := "stream error" }] }

/-- A runtime whose create stage fails. -/
def rtCreateErr : Runtime :=
  { rtOK with create := fun _ => Except.error { msg := "create boom" } }

/-- A runtime on which every stage succeeds but `inspect` reports an empty
identifier. -/
def rtEmptyId : Runtime :=
  { rtOK with inspect := fun _ => Except.ok { id := "", network_settings := { ports := none } } }

/-- A fresh builder for image `img` with `pull_on_build` set. -/
def bPull : ContainerBuilder := (ContainerBuilder.new "img").withPullOnBuild true

/-- The container `rtOK` produces: inspected id `cid`, no ports, shared client. -/
def cCid : Container :=
  { details := { id := "cid", network_settings := { ports := none } }
    client := Client.shared }

/-- The container `rtEmptyId` produces: an empty inspected id. -/
def cEmpty : Container :=
  { details := { id := "", network_settings := { ports := none } }
    client := Client.shared }

/-- The name submitted to creation is exactly `slugged_name`. -/
lemma createOpts_name (b : ContainerBuilder) (rng : Rng) :
    (b.createOpts rng).name = b.slugged_name rng := by
  simp [ContainerBuilder.createOpts, create_options_eq]

/-- Recognizes create requests. -/
def Request.isCreate : Request → Bool
  | Request.create _ => true
  | _ => false

/-- The trace of one `build()` run contains exactly one create request, the
one carrying the builder's options. -/
lemma create_filter (b : ContainerBuilder) (rt : Runtime) (rng : Rng) :
    (b.build rt rng).1.filter Request.isCreate = [Request.create (b.createOpts rng)] := by
  cases hc : rt.create (b.createOpts rng) with
  | error e =>
    rw [build_create_err b rt rng e hc]
    cases hp : b.pull_on_build <;> simp [pullReqs, hp, Request.isCreate]
  | ok info =>
    cases hs : rt.start info.id with
    | error e =>
      rw [build_start_err b rt rng info e hc hs]
      cases hp : b.pull_on_build <;> simp [pullReqs, hp, Request.isCreate]
    | ok u =>
      cases hi : rt.inspect info.id with
      | error e =>
        rw [build_inspect_err b rt rng info e hc hs hi]
        cases hp : b.pull_on_build <;> simp [pullReqs, hp, Request.isCreate]
      | ok d =>
        rw [build_ok b rt rng info d hc hs hi]
        cases hp : b.pull_on_build <;> simp [pullReqs, hp, Request.isCreate]

/-- Exhaustive case analysis of one `build()` run: the pull stage never
fails, so a run either stops at a create, start or inspect error, or
succeeds with the inspected details; the trace grows stage by stage. -/
lemma build_cases (b : ContainerBuilder) (rt : Runtime) (rng : Rng) :
    (∃ e, b.build rt rng
        = (pullReqs b ++ [Request.create (b.createOpts rng)], Except.error (Stage.create, e)))
  ∨ (∃ info e, rt.create (b.createOpts rng) = Except.ok info
      ∧ b.build rt rng
          = (pullReqs b ++ [Request.create (b.createOpts rng), Request.start info.id],
              Except.error (Stage.start, e)))
  ∨ (∃ info e, rt.create (b.createOpts rng) = Except.ok info
      ∧ b.build rt rng
          = (pullReqs b
                ++ [Request.create (b.createOpts rng), Request.start info.id,
                    Request.inspect info.id],
              Except.error (Stage.inspect, e)))
  ∨ (∃ info d, rt.create (b.createOpts rng) = Except.ok info
      ∧ rt.inspect info.id = Except.ok d
      ∧ b.build rt rng
          = (pullReqs b
                ++ [Request.create (b.createOpts rng), Request.start info.id,
                    Request.inspect info.id],
              Except.ok { details := d, client := b.client })) := by
  cases hc : rt.create (b.createOpts rng) with
  | error e => exact Or.inl ⟨e, build_create_err b rt rng e hc⟩
  | ok info =>
    cases hs : rt.start info.id with
    | error e => exact Or.inr (Or.inl ⟨info, e, rfl, build_start_err b rt rng info e hc hs⟩)
    | ok u =>
      cases hi : rt.inspect info.id with
      | error e =>
        exact Or.inr (Or.inr (Or.inl ⟨info, e, rfl, build_inspect_err b rt rng info e hc hs hi⟩))
      | ok d =>
        exact Or.inr (Or.inr (Or.inr ⟨info, d, rfl, hi, build_ok b rt rng info d hc hs hi⟩))

/-- A fresh builder for `image_name` after the `expose` calls listed in `l`
(`(source, host, protocol)` per call), in call order. -/
def exposeAll (image_name : String) (l : List (Nat × Nat × Protocol)) : ContainerBuilder :=
  l.foldl (fun acc x => acc.expose x.1 x.2.1 x.2.2) (ContainerBuilder.new image_name)

/-- The stage sequence of a complete pipeline run: pull (when configured),
create, start, inspect. -/
def fullStages (b : ContainerBuilder) : List Stage :=
  (if b.pull_on_build then [Stage.pull] else []) ++ [Stage.create, Stage.start, Stage.inspect]

/-! ### Claim theorems -/

/-- Claim C7: for every `image_name`, `ContainerBuilder::new(image_name)`
produces a builder with `image_tag = "latest"`, empty ports, commands and
environment-variable lists, no name, `slug_length = 0`,
`pull_on_build = false`, and the default shared runtime client. -/
theorem claim_C7 (image_name : String) :
    (ContainerBuilder.new image_name).image_name = image_name
      ∧ (ContainerBuilder.new image_name).image_tag = "latest"
      ∧ (ContainerBuilder.new image_name).name = none
      ∧ (ContainerBuilder.new image_name).ports = []
      ∧ (ContainerBuilder.new image_name).commands = []
      ∧ (ContainerBuilder.new image_name).environment_variables = []
      ∧ (ContainerBuilder.new image_name).slug_length = 0
      ∧ (ContainerBuilder.new image_name).pull_on_build = false
      ∧ (ContainerBuilder.new image_name).client = Client.shared :=
  ⟨rfl, rfl, rfl, rfl, rfl, rfl, rfl, rfl, rfl⟩

/-- Claim C8: `commands` replaces the command list wholesale (a second call
discards the first list), `environment_variable` appends one entry per call
(k calls yield the k entries in call order), and every fluent configuration
operation changes only its own field, leaving all other builder fields
unchanged. -/
theorem claim_C8 (b : ContainerBuilder) (t n ev : String) (cs1 cs2 : List String)
    (l : List String) (k src host : Nat) (p : Protocol) (c : Client) (fl : Bool) :
    ((b.withCommands cs1).commands = cs1
      ∧ (b.withCommands cs1).withCommands cs2 = b.withCommands cs2)
  ∧ ((b.environment_variable ev).environment_variables = b.environment_variables ++ [ev]
      ∧ (l.foldl (fun acc x => acc.environment_variable x) b).environment_variables
          = b.environment_variables ++ l)
  ∧ ((b.tag t).image_name = b.image_name ∧ (b.tag t).name = b.name
      ∧ (b.tag t).ports = b.ports ∧ (b.tag t).commands = b.commands
      ∧ (b.tag t).environment_variables = b.environment_variables
      ∧ (b.tag t).client = b.client ∧ (b.tag t).pull_on_build = b.pull_on_build
      ∧ (b.tag t).slug_length = b.slug_length)
  ∧ ((b.withName n).image_name = b.image_name ∧ (b.withName n).image_tag = b.image_tag
      ∧ (b.withName n).ports = b.ports ∧ (b.withName n).commands = b.commands
      ∧ (b.withName n).environment_variables = b.environment_variables
      ∧ (b.withName n).client = b.client ∧ (b.withName n).pull_on_build = b.pull_on_build
      ∧ (b.withName n).slug_length = b.slug_length)
  ∧ ((b.withSlugLength k).image_name = b.image_name
      ∧ (b.withSlugLength k).image_tag = b.image_tag
      ∧ (b.withSlugLength k).name = b.name ∧ (b.withSlugLength k).ports = b.ports
      ∧ (b.withSlugLength k).commands = b.commands
      ∧ (b.withSlugLength k).environment_variables = b.environment_variables
      ∧ (b.withSlugLength k).client = b.client
      ∧ (b.withSlugLength k).pull_on_build = b.pull_on_build)
  ∧ ((b.expose src host p).image_name = b.image_name
      ∧ (b.expose src host p).image_tag = b.image_tag
      ∧ (b.expose src host p).name = b.name ∧ (b.expose src host p).commands = b.commands
      ∧ (b.expose src host p).environment_variables = b.environment_variables
      ∧ (b.expose src host p).client = b.client
      ∧ (b.expose src host p).pull_on_build = b.pull_on_build
      ∧ (b.expose src host p).slug_length = b.slug_length)
  ∧ ((b.environment_variable ev).image_name = b.image_name
      ∧ (b.environment_variable ev).image_tag = b.image_tag
      ∧ (b.environment_variable ev).name = b.name ∧ (b.environment_variable ev).ports = b.ports
      ∧ (b.environment_variable ev).commands = b.commands
      ∧ (b.environment_variable ev).client = b.client
      ∧ (b.environment_variable ev).pull_on_build = b.pull_on_build
      ∧ (b.environment_variable ev).slug_length = b.slug_length)
  ∧ ((b.withCommands cs1).image_name = b.image_name
      ∧ (b.withCommands cs1).image_tag = b.image_tag
      ∧ (b.withCommands cs1).name = b.name ∧ (b.withCommands cs1).ports = b.ports
      ∧ (b.withCommands cs1).environment_variables = b.environment_variables
      ∧ (b.withCommands cs1).client = b.client
      ∧ (b.withCommands cs1).pull_on_build = b.pull_on_build
      ∧ (b.withCommands cs1).slug_length = b.slug_length)
  ∧ ((b.withPullOnBuild fl).image_name = b.image_name
      ∧ (b.withPullOnBuild fl).image_tag = b.image_tag ∧ (b.withPullOnBuild fl).name = b.name
      ∧ (b.withPullOnBuild fl).ports = b.ports ∧ (b.withPullOnBuild fl).commands = b.commands
      ∧ (b.withPullOnBuild fl).environment_variables = b.environment_variables
      ∧ (b.withPullOnBuild fl).client = b.client
      ∧ (b.withPullOnBuild fl).slug_length = b.slug_length)
  ∧ ((b.withClient c).image_name = b.image_name ∧ (b.withClient c).image_tag = b.image_tag
      ∧ (b.withClient c).name = b.name ∧ (b.withClient c).ports = b.ports
      ∧ (b.withClient c).commands = b.commands
      ∧ (b.withClient c).environment_variables = b.environment_variables
      ∧ (b.withClient c).pull_on_build = b.pull_on_build
      ∧ (b.withClient c).slug_length = b.slug_length) := by
  refine ⟨⟨rfl, rfl⟩, ⟨rfl, environment_variables_foldl l b⟩, ?_, ?_, ?_, ?_, ?_, ?_, ?_, ?_⟩ <;>
    exact ⟨rfl, rfl, rfl, rfl, rfl, rfl, rfl, rfl⟩

/-- Claim C9: the typed port accessor never returns a value (the source hits
`todo!()` on every call, modelled as `none`), while `ports_raw` totally
returns the runtime's native port-mapping structure verbatim. -/
theorem claim_C9 (c : Container) :
    c.ports = none ∧ c.ports_raw = c.details.network_settings.ports :=
  ⟨rfl, rfl⟩

/-- Claim C10: `Container::new(image_name)` behaves exactly like
`ContainerBuilder::new(image_name).build()`, and `Container::pull(image_name)`
exactly like `ContainerBuilder::new(image_name).pull_on_build(true).build()`:
same runtime requests in the same order and the same result, for every
runtime and RNG. -/
theorem claim_C10 (image_name : String) (rt : Runtime) (rng : Rng) :
    Container.new image_name rt rng = (ContainerBuilder.new image_name).build rt rng
      ∧ Container.pull image_name rt rng
          = ((ContainerBuilder.new image_name).withPullOnBuild true).build rt rng :=
  ⟨rfl, rfl⟩

/-- Claim C2: with a base name `x` set and `slug_length = n > 0`, the
effective name passed to creation is `x`, an underscore, and exactly `n`
alphanumeric characters; with `n = 0` it is `x` verbatim; with no name set,
no name is passed to the runtime regardless of `slug_length`. -/
theorem claim_C2 (b : ContainerBuilder) (rng : Rng) (x : String) :
    (b.name = some x → 0 < b.slug_length →
      ∃ slug : String, (b.createOpts rng).name = some (x ++ "_" ++ slug)
        ∧ slug.length = b.slug_length ∧ slug.data.all Char.isAlphanum = true)
  ∧ (b.name = some x → b.slug_length = 0 → (b.createOpts rng).name = some x)
  ∧ (b.name = none → (b.createOpts rng).name = none) := by
  refine ⟨?_, ?_, ?_⟩
  · intro hn hk
    refine ⟨String.mk ((List.range b.slug_length).map (fun i => alphanumericChar (rng i))),
      ?_, ?_, ?_⟩
    · rw [createOpts_name]
      simp [ContainerBuilder.slugged_name, hn, hk]
    · simp [String.length]
    · simp only [String.data, List.all_eq_true, List.mem_map, List.mem_range]
      rintro a ⟨i, hi, rfl⟩
      exact alphanumericChar_isAlphanum (rng i)
  · intro hn hk
    rw [createOpts_name]
    simp [ContainerBuilder.slugged_name, hn, hk]
  · intro hn
    rw [createOpts_name]
    simp [ContainerBuilder.slugged_name, hn]

/-- A fresh builder named `x` with a two-character slug, for the C2 witness. -/
def bSlug : ContainerBuilder := ((ContainerBuilder.new "img").withName "x").withSlugLength 2

/-- A fresh builder named `x` with no slug, for the C2 witness. -/
def bNamed : ContainerBuilder := (ContainerBuilder.new "img").withName "x"

/-- Witness for C2 at concrete builders. -/
theorem claim_C2_witness :
    (∃ slug : String, (bSlug.createOpts rng0).name = some ("x" ++ "_" ++ slug)
        ∧ slug.length = bSlug.slug_length ∧ slug.data.all Char.isAlphanum = true)
  ∧ (bNamed.createOpts rng0).name = some "x"
  ∧ ((ContainerBuilder.new "img").createOpts rng0).name = none :=
  ⟨(claim_C2 bSlug rng0 "x").1 rfl (by decide),
   (claim_C2 bNamed rng0 "x").2.1 rfl rfl,
   (claim_C2 (ContainerBuilder.new "img") rng0 "x").2.2 rfl⟩

/-- Claim C5: calling `expose` k times on a fresh builder and then `build()`
submits exactly the k port mappings to the runtime's creation endpoint, in
call order, in a single create request. -/
theorem claim_C5 (image_name : String) (l : List (Nat × Nat × Protocol)) (rt : Runtime)
    (rng : Rng) :
    ((exposeAll image_name l).createOpts rng).exposedPorts
        = l.map (fun x => { srcport := x.1, protocol := x.2.2.as_ref, hostport := x.2.1 })
  ∧ ((exposeAll image_name l).createOpts rng).exposedPorts.length = l.length
  ∧ Request.create ((exposeAll image_name l).createOpts rng)
      ∈ ((exposeAll image_name l).build rt rng).1
  ∧ ((exposeAll image_name l).build rt rng).1.filter Request.isCreate
      = [Request.create ((exposeAll image_name l).createOpts rng)] := by
  have h1 : ((exposeAll image_name l).createOpts rng).exposedPorts
      = l.map (fun x => { srcport := x.1, protocol := x.2.2.as_ref, hostport := x.2.1 }) := by
    simp [exposeAll, ContainerBuilder.createOpts, create_options_eq, expose_foldl,
      ContainerBuilder.new, Port.toExposed, List.map_map, Function.comp]
  exact ⟨h1, by rw [h1]; simp, create_in_trace (exposeAll image_name l) rt rng,
    create_filter (exposeAll image_name l) rt rng⟩

/-- Claim C1, counterexample: a builder with `pull_on_build` set and a pull
stream that yields an error item.  Contrary to the claim, `build()` does not
abort with a pull-stage error: the full pipeline runs — the creation, start
and inspect requests are all sent — and `build()` succeeds. -/
theorem claim_C1_counterexample :
    rtPullErr.pullStream bPull.image = [Except.error { msg := "stream error" }]
  ∧ bPull.pull_on_build = true
  ∧ (bPull.build rtPullErr rng0).1
      = [Request.pull "img:latest",
         Request.create
           { image := "img:latest", cmd := [], env := [], name := none, exposedPorts := [] },
         Request.start "cid", Request.inspect "cid"]
  ∧ (bPull.build rtPullErr rng0).2 = Except.ok cCid :=
  ⟨rfl, rfl, rfl, rfl⟩

/-- Claim C1 as amended: with `pull_on_build` set, the pull stage is invoked
before creation, but it swallows stream errors — the drain loop merely stops
at the first error item and `pull_image` returns success — so `build()` never
fails with a pull-stage error and the creation request is always sent, even
when the pull stream contains an error. -/
theorem claim_C1_amended (b : ContainerBuilder) (rt : Runtime) (rng : Rng)
    (hp : b.pull_on_build = true) :
    pull_image (rt.pullStream b.image) = Except.ok ()
  ∧ (∀ e, (b.build rt rng).2 ≠ Except.error (Stage.pull, e))
  ∧ Request.pull b.image ∈ (b.build rt rng).1
  ∧ Request.create (b.createOpts rng) ∈ (b.build rt rng).1 := by
  refine ⟨pull_image_ok _, ?_, ?_, create_in_trace b rt rng⟩
  · intro e
    rcases build_cases b rt rng with ⟨e0, hb⟩ | ⟨info, e0, hc, hb⟩ | ⟨info, e0, hc, hb⟩ |
        ⟨info, d, hc, hi, hb⟩ <;>
      rw [hb] <;> simp
  · rcases build_cases b rt rng with ⟨e0, hb⟩ | ⟨info, e0, hc, hb⟩ | ⟨info, e0, hc, hb⟩ |
        ⟨info, d, hc, hi, hb⟩ <;>
      rw [hb] <;> simp [pullReqs, hp]

/-- Witness for the amended C1 at the concrete erroring pull stream. -/
theorem claim_C1_witness :
    pull_image (rtPullErr.pullStream bPull.image) = Except.ok ()
  ∧ (bPull.build rtPullErr rng0).2 ≠ Except.error (Stage.pull, { msg := "stream error" })
  ∧ Request.pull bPull.image ∈ (bPull.build rtPullErr rng0).1
  ∧ Request.create (bPull.createOpts rng0) ∈ (bPull.build rtPullErr rng0).1 :=
  ⟨(claim_C1_amended bPull rtPullErr rng0 rfl).1,
   (claim_C1_amended bPull rtPullErr rng0 rfl).2.1 { msg := "stream error" },
   (claim_C1_amended bPull rtPullErr rng0 rfl).2.2.1,
   (claim_C1_amended bPull rtPullErr rng0 rfl).2.2.2⟩

/-- Claim C4, counterexample: a runtime on which every stage succeeds but
whose inspect stage reports an empty identifier.  `build()` succeeds and the
returned handle's id is the empty string — the layer performs no
non-emptiness check. -/
theorem claim_C4_counterexample :
    ((ContainerBuilder.new "img").build rtEmptyId rng0).2 = Except.ok cEmpty
  ∧ cEmpty.id = "" :=
  ⟨rfl, rfl⟩

/-- Claim C4 as amended: `build()` either fails with an error identifying the
failing stage — always one of pull, create, start, inspect, never outside
that taxonomy — or returns a handle whose details are exactly what the
runtime's inspect stage reported.  The id is therefore non-empty whenever the
runtime never reports an empty identifier, but the layer itself does not
validate this. -/
theorem claim_C4_amended (b : ContainerBuilder) (rt : Runtime) (rng : Rng) :
    (∀ s e, (b.build rt rng).2 = Except.error (s, e) →
      s = Stage.pull ∨ s = Stage.create ∨ s = Stage.start ∨ s = Stage.inspect)
  ∧ (∀ c, (b.build rt rng).2 = Except.ok c → ∃ i, rt.inspect i = Except.ok c.details)
  ∧ ((∀ i d, rt.inspect i = Except.ok d → d.id ≠ "") →
      ∀ c, (b.build rt rng).2 = Except.ok c → c.id ≠ "") := by
  have h2 : ∀ c, (b.build rt rng).2 = Except.ok c → ∃ i, rt.inspect i = Except.ok c.details := by
    intro c hok
    rcases build_cases b rt rng with ⟨e0, hb⟩ | ⟨info, e0, hc, hb⟩ | ⟨info, e0, hc, hb⟩ |
        ⟨info, d, hc, hi, hb⟩ <;>
      rw [hb] at hok <;> simp at hok
    exact ⟨info.id, by rw [← hok]; exact hi⟩
  refine ⟨?_, h2, ?_⟩
  · intro s e herr
    rcases build_cases b rt rng with ⟨e0, hb⟩ | ⟨info, e0, hc, hb⟩ | ⟨info, e0, hc, hb⟩ |
        ⟨info, d, hc, hi, hb⟩ <;>
      rw [hb] at herr <;> simp at herr
    · exact Or.inr (Or.inl herr.1.symm)
    · exact Or.inr (Or.inr (Or.inl herr.1.symm))
    · exact Or.inr (Or.inr (Or.inr herr.1.symm))
  · intro hne c hok h0
    obtain ⟨i, hi⟩ := h2 c hok
    exact hne i c.details hi h0

/-- Witness for the amended C4: the create-stage error tag at a failing
runtime, and a non-empty id at a runtime that reports non-empty identifiers. -/
theorem claim_C4_witness :
    (Stage.create = Stage.pull ∨ Stage.create = Stage.create ∨ Stage.create = Stage.start
        ∨ Stage.create = Stage.inspect)
  ∧ cCid.id ≠ "" :=
  ⟨(claim_C4_amended (ContainerBuilder.new "img") rtCreateErr rng0).1 Stage.create
      { msg := "create boom" } rfl,
   (claim_C4_amended (ContainerBuilder.new "img") rtOK rng0).2.2
      (fun i d h => by injection h with h1; rw [← h1]; decide) cCid rfl⟩

/-- Claim C6, counterexample: `tag("")` leaves the builder with an empty
`image_tag`, so the invariant "image_tag is non-empty after every fluent
call, including tag()" fails; the composed image reference then ends in a
bare colon. -/
theorem claim_C6_counterexample :
    ((ContainerBuilder.new "img").tag "").image_tag = ""
  ∧ ((ContainerBuilder.new "img").tag "").image = "img:" :=
  ⟨rfl, rfl⟩

/-- Claim C6 as amended: `image_tag` is `"latest"` after `new()` and is
preserved by every fluent call except `tag()`, which stores its argument
verbatim — possibly empty, the non-emptiness invariant is not enforced — and
the image reference submitted to pull and create is exactly
`image_name ++ ":" ++ image_tag`. -/
theorem claim_C6_amended (b : ContainerBuilder) (img t n ev : String) (cs : List String)
    (k src host : Nat) (p : Protocol) (c : Client) (fl : Bool) (rt : Runtime) (rng : Rng) :
    (ContainerBuilder.new img).image_tag = "latest"
  ∧ (b.tag t).image_tag = t
  ∧ (b.withName n).image_tag = b.image_tag
  ∧ (b.withSlugLength k).image_tag = b.image_tag
  ∧ (b.expose src host p).image_tag = b.image_tag
  ∧ (b.environment_variable ev).image_tag = b.image_tag
  ∧ (b.withCommands cs).image_tag = b.image_tag
  ∧ (b.withPullOnBuild fl).image_tag = b.image_tag
  ∧ (b.withClient c).image_tag = b.image_tag
  ∧ b.image = b.image_name ++ ":" ++ b.image_tag
  ∧ (b.createOpts rng).image = b.image_name ++ ":" ++ b.image_tag
  ∧ (b.pull_on_build = true →
      Request.pull (b.image_name ++ ":" ++ b.image_tag) ∈ (b.build rt rng).1) := by
  refine ⟨rfl, rfl, rfl, rfl, rfl, rfl, rfl, rfl, rfl, rfl, ?_, ?_⟩
  · simp [ContainerBuilder.createOpts, create_options_eq, ContainerBuilder.image]
  · intro hp
    have hm : Request.pull b.image ∈ (b.build rt rng).1 := by
      rcases build_cases b rt rng with ⟨e0, hb⟩ | ⟨info, e0, hc, hb⟩ | ⟨info, e0, hc, hb⟩ |
          ⟨info, d, hc, hi, hb⟩ <;>
        rw [hb] <;> simp [pullReqs, hp]
    simpa [ContainerBuilder.image] using hm

/-- Witness for the amended C6 at a concrete pulling builder. -/
theorem claim_C6_witness :
    Request.pull (bPull.image_name ++ ":" ++ bPull.image_tag) ∈ (bPull.build rtOK rng0).1 :=
  (claim_C6_amended bPull "img" "" "" "" [] 0 0 0 Protocol.Tcp Client.shared false rtOK
      rng0).2.2.2.2.2.2.2.2.2.2.2 rfl

/-- Claim C3: `build()` runs the stages in strict order — pull (invoked if
and only if `pull_on_build` is set), then create, then start, then inspect.
The issued trace is always a prefix of that sequence, a success runs all of
it, and on a stage error the failing stage is the last one invoked: no later
stage appears in the trace (so start is never invoked before a successful
create, and inspect never before a successful start). -/
theorem claim_C3 (b : ContainerBuilder) (rt : Runtime) (rng : Rng) :
    (∃ tail, (b.build rt rng).1.map Request.stage ++ tail = fullStages b)
  ∧ ((Stage.pull ∈ (b.build rt rng).1.map Request.stage) ↔ b.pull_on_build = true)
  ∧ (∀ c, (b.build rt rng).2 = Except.ok c →
      (b.build rt rng).1.map Request.stage = fullStages b)
  ∧ (∀ s e, (b.build rt rng).2 = Except.error (s, e) →
      s ∈ (b.build rt rng).1.map Request.stage
        ∧ ∀ s2 ∈ (b.build rt rng).1.map Request.stage, s2.idx ≤ s.idx) := by
  rcases build_cases b rt rng with ⟨e0, hb⟩ | ⟨info, e0, hc, hb⟩ | ⟨info, e0, hc, hb⟩ |
      ⟨info, d, hc, hi, hb⟩ <;> rw [hb]
  · refine ⟨⟨[Stage.start, Stage.inspect], ?_⟩, ?_, ?_, ?_⟩
    · cases hp : b.pull_on_build <;> simp [pullReqs, fullStages, hp, Request.stage]
    · cases hp : b.pull_on_build <;> simp [pullReqs, hp, Request.stage]
    · intro c hok
      exact absurd hok (by simp)
    · intro s e herr
      simp at herr
      obtain ⟨h1, h2⟩ := herr
      subst h1
      cases hp : b.pull_on_build <;>
        refine ⟨?_, ?_⟩ <;>
        simp [pullReqs, hp, Request.stage, Stage.idx]
  · refine ⟨⟨[Stage.inspect], ?_⟩, ?_, ?_, ?_⟩
    · cases hp : b.pull_on_build <;> simp [pullReqs, fullStages, hp, Request.stage]
    · cases hp : b.pull_on_build <;> simp [pullReqs, hp, Request.stage]
    · intro c hok
      exact absurd hok (by simp)
    · intro s e herr
      simp at herr
      obtain ⟨h1, h2⟩ := herr
      subst h1
      cases hp : b.pull_on_build <;>
        refine ⟨?_, ?_⟩ <;>
        simp [pullReqs, hp, Request.stage, Stage.idx]
  · refine ⟨⟨[], ?_⟩, ?_, ?_, ?_⟩
    · cases hp : b.pull_on_build <;> simp [pullReqs, fullStages, hp, Request.stage]
    · cases hp : b.pull_on_build <;> simp [pullReqs, hp, Request.stage]
    · intro c hok
      exact absurd hok (by simp)
    · intro s e herr
      simp at herr
      obtain ⟨h1, h2⟩ := herr
      subst h1
      cases hp : b.pull_on_build <;>
        refine ⟨?_, ?_⟩ <;>
        simp [pullReqs, hp, Request.stage, Stage.idx]
  · refine ⟨⟨[], ?_⟩, ?_, ?_, ?_⟩
    · cases hp : b.pull_on_build <;> simp [pullReqs, fullStages, hp, Request.stage]
    · cases hp : b.pull_on_build <;> simp [pullReqs, hp, Request.stage]
    · intro c hok
      cases hp : b.pull_on_build <;> simp [pullReqs, fullStages, hp, Request.stage]
    · intro s e herr
      exact absurd herr (by simp)

/-- Witness for C3: on an all-success runtime the full stage sequence is
issued. -/
theorem claim_C3_witness :
    ((ContainerBuilder.new "img").build rtOK rng0).1.map Request.stage
      = fullStages (ContainerBuilder.new "img") :=
  (claim_C3 (ContainerBuilder.new "img") rtOK rng0).2.2.1 cCid rfl

end Harbourmaster
